import Mathlib

/-!
Shallow embedding of the YouTube listing/detail scraper in `src/main.py`
(an Apify actor built on a Playwright crawler), together with proofs
settling the specification claims about it.

String-level operations from Python (`str.replace`, `str.split`,
`str.strip`, `str.zfill`, the regular expressions used by the scraper)
are embedded as structurally recursive functions over `List Char`, so
that every definition is kernel-computable on concrete inputs.
-/

set_option autoImplicit false

namespace Scraper

/-! ### Python string primitives, embedded over `List Char` -/

/-- Characters stripped by Python `str.strip()` (ASCII whitespace set). -/
def is_py_space (c : Char) : Bool :=
  c = ' ' || c = '\t' || c = '\n' || c = '\r' || c = '\x0b' || c = '\x0c'

/-- Model of Python `str.strip()` over a character list. -/
def py_strip_chars (l : List Char) : List Char :=
  ((l.dropWhile is_py_space).reverse.dropWhile is_py_space).reverse

/-- Model of Python `str.strip()`. -/
def py_strip_s (s : String) : String :=
  String.mk (py_strip_chars s.data)

/-- Model of Python `str.replace(a, repl)` for a single-character pattern
`a` (every occurrence is replaced, scanning left to right). -/
def py_replace1 (a : Char) (repl : List Char) : List Char → List Char
  | [] => []
  | c :: rest =>
    if c = a then repl ++ py_replace1 a repl rest
    else c :: py_replace1 a repl rest

/-- Model of Python `str.replace(ab, repl)` for a two-character pattern
`[a, b]` (every non-overlapping occurrence is replaced, scanning left to
right, exactly as CPython does). -/
def py_replace2 (a b : Char) (repl : List Char) : List Char → List Char
  | [] => []
  | [c] => [c]
  | c :: d :: rest =>
    if c = a ∧ d = b then repl ++ py_replace2 a b repl rest
    else c :: py_replace2 a b repl (d :: rest)

/-- Model of Python `str.split(sep)` for a single-character separator:
splits at every occurrence and keeps empty segments, so
`":13".split(":") = ["", "13"]` and `"".split(":") = [""]`. -/
def py_split (sep : Char) : List Char → List (List Char)
  | [] => [[]]
  | c :: rest =>
    match py_split sep rest with
    | [] => [[]]
    | h :: t => if c = sep then [] :: h :: t else (c :: h) :: t

/-- Model of Python `str.zfill(2)` on the digit runs the scraper feeds it
(no sign characters occur in those inputs). -/
def zfill2 (l : List Char) : List Char :=
  if l.length < 2 then List.replicate (2 - l.length) '0' ++ l else l

/-! ### Duration transform (main.py lines 520-599) -/

/-- Model of `duration.startswith("PT")` (main.py line 540). -/
def starts_with_pt (s : String) : Bool :=
  match s.data with
  | 'P' :: 'T' :: _ => true
  | _ => false

/-- Model of the anchored regular expression
`^\d{1,2}:\d{2}(:\d{2})?$` used at main.py line 569 to recognize an
already colon-delimited time. -/
def is_time_format_chars (l : List Char) : Bool :=
  let ds := l.takeWhile Char.isDigit
  (ds.length = 1 || ds.length = 2) &&
    match l.drop ds.length with
    | ':' :: m1 :: m2 :: rest =>
      m1.isDigit && m2.isDigit &&
        (match rest with
         | [] => true
         | [':', s1, s2] => s1.isDigit && s2.isDigit
         | _ => false)
    | _ => false

/-- String wrapper for `is_time_format_chars`. -/
def is_time_format (s : String) : Bool :=
  is_time_format_chars s.data

/-- Model of the ISO-8601 duration branch at main.py lines 541-562:
strip `PT`, turn `H`/`M` into `:` and drop `S`, split on `:`, fix a
missing leading component when two parts remain, and zero-pad minutes
and seconds only in the three-part (hours present) case; the final
value is stripped before being stored. -/
def parse_iso_duration (s : String) : String :=
  let d := py_replace1 'S' []
    (py_replace1 'M' [':'] (py_replace1 'H' [':'] (py_replace2 'P' 'T' [] s.data)))
  let parts := py_split ':' d
  let d2 :=
    match parts with
    | [a, b] => if a = [] then '0' :: ':' :: b else d
    | [h, m, s2] =>
      (if h = [] then ['0'] else h) ++ ':' ::
        zfill2 (if m = [] then ['0'] else m) ++ ':' ::
        zfill2 (if s2 = [] then ['0'] else s2)
    | _ => d
  String.mk (py_strip_chars d2)

/-- Normalization applied to a stripped raw duration value
(main.py lines 539-575): an ISO `PT...` token is parsed, a value already
matching the time pattern passes through, anything else is discarded and
the candidate chain advances. -/
def duration_normalize (s : String) : Option String :=
  if starts_with_pt s then some (parse_iso_duration s)
  else if is_time_format s then some s
  else none

/-! ### Likes transform (main.py lines 610-656) -/

/-- Character class `[\d,\.]` of the likes/count regular expression. -/
def is_num_char (c : Char) : Bool :=
  c.isDigit || c = ',' || c = '.'

/-- Character class `[KMB]` under `re.IGNORECASE`. -/
def is_kmb (c : Char) : Bool :=
  c = 'K' || c = 'M' || c = 'B' || c = 'k' || c = 'm' || c = 'b'

/-- Model of `re.search(r"([\d,\.]+[KMB]?)", text, re.IGNORECASE)`
(main.py line 620): the leftmost maximal run of digits, commas and dots,
greedily extended by one K/M/B suffix character, or `none` when no such
character occurs. -/
def search_num_chars : List Char → Option (List Char)
  | [] => none
  | c :: rest =>
    if is_num_char c then
      some ((c :: rest).takeWhile is_num_char ++
        (match (c :: rest).dropWhile is_num_char with
         | k :: _ => if is_kmb k then [k] else []
         | [] => []))
    else search_num_chars rest

/-- String wrapper for `search_num_chars`. -/
def search_num_token (s : String) : Option String :=
  (search_num_chars s.data).map String.mk

/-- Model of the likes extraction applied to a candidate's text content
(main.py lines 616-635): an empty text falls through (to the aria-label
fallback, absent here); otherwise the text is stripped, a regex match
yields the captured magnitude, and a non-empty stripped text with no
match is returned verbatim. -/
def likes_from_text (text : String) : Option String :=
  if text = "" then none
  else
    let t := py_strip_s text
    match search_num_token t with
    | some g => some g
    | none => if t ≠ "" then some t else none

/-! ### Candidate chain resolution (main.py lines 520-594)

The duration loop is the scraper's fully worked candidate chain: for each
selector in order, the element is read (possibly absent or erroring),
a truthy raw value is stripped and normalized, and the first candidate
whose normalized value exists wins; all others merely advance the chain.
`candidate_value` is that per-candidate step and `resolve_chain` the
loop, parametric in the field's normalization. -/

/-- Value contributed by one candidate: `none` models an absent selector
or a read error (the chain advances), `some raw` a read value, which must
be truthy (Python `if duration:`) and then normalize after stripping. -/
def candidate_value (normalize : String → Option String) : Option String → Option String
  | none => none
  | some r => if r = "" then none else normalize (py_strip_s r)

/-- Chain loop carrying the index of the next candidate. -/
def resolve_chain_from (normalize : String → Option String) (i : Nat) :
    List (Option String) → Option (String × Nat)
  | [] => none
  | c :: rest =>
    match candidate_value normalize c with
    | some v => some (v, i)
    | none => resolve_chain_from normalize (i + 1) rest

/-- Resolve a field's ordered candidate list: the first candidate whose
stripped raw value normalizes to a value wins, and its index is reported. -/
def resolve_chain (normalize : String → Option String)
    (cands : List (Option String)) : Option (String × Nat) :=
  resolve_chain_from normalize 0 cands

/-! ### URL canonicalization (main.py lines 344-346 and 389-392) -/

/-- Model of `link.startswith("/")`. -/
def starts_with_slash (s : String) : Bool :=
  match s.data with
  | '/' :: _ => true
  | _ => false

/-- The link-normalization step applied before enqueueing and before
visiting a video: a site-relative link is prefixed with the YouTube
origin, anything else is left unchanged. -/
def canonicalize (u : String) : String :=
  if starts_with_slash u then "https://www.youtube.com" ++ u else u

/-! ### List-item extraction (main.py lines 291-325) -/

/-- Python truthiness of an optional string (`None` and `""` are falsy). -/
def truthy : Option String → Bool
  | none => false
  | some s => s ≠ ""

instance exceptDecEq {ε α : Type} [DecidableEq ε] [DecidableEq α] :
    DecidableEq (Except ε α) := fun a b =>
  match a, b with
  | .ok x, .ok y => if h : x = y then .isTrue (by rw [h]) else .isFalse (by simp [h])
  | .error x, .error y => if h : x = y then .isTrue (by rw [h]) else .isFalse (by simp [h])
  | .ok _, .error _ => .isFalse (by simp)
  | .error _, .ok _ => .isFalse (by simp)

/-- Results of the six per-item page reads performed by the list loop
(main.py lines 296-321); `Except.error ()` models a raising read
(e.g. a Playwright timeout on a missing locator), `Except.ok v` a read
returning an optional value. -/
structure ElemReads where
  title_attr : Except Unit (Option String)
  title_text : Except Unit (Option String)
  thumbnail : Except Unit (Option String)
  link : Except Unit (Option String)
  viscount : Except Unit (Option String)
  age : Except Unit (Option String)
deriving DecidableEq

/-- The `video_info` dictionary built per list item (the `video_url`
field, a constant page URL, is omitted). -/
structure VideoRecord where
  title : Option String
  thumbnail : Option String
  link : Option String
  viscount : Option String
  age : Option String
deriving DecidableEq

/-- One iteration of the element loop at main.py lines 292-322: the reads
are performed in program order (`title` is `aria-label or text_content`,
Python `or` taking the second operand only when the first is falsy), and
the first raising read aborts the whole item. -/
def extract_item (e : ElemReads) : Except Unit VideoRecord := do
  let ta ← e.title_attr
  let title ← if truthy ta then pure ta else e.title_text
  let thumbnail ← e.thumbnail
  let link ← e.link
  let viscount ← e.viscount
  let age ← e.age
  pure { title := title, thumbnail := thumbnail, link := link,
         viscount := viscount, age := age }

/-- The element loop without the quota bound: items whose extraction
raises are absorbed by the `except` at main.py line 324 and dropped,
the rest are appended to `video_info_list`. -/
def extract_list_loop (elems : List ElemReads) : List VideoRecord :=
  elems.filterMap (fun e => (extract_item e).toOption)

/-- An element all of whose reads succeed with `None`. -/
def all_null_reads : ElemReads :=
  ⟨.ok none, .ok none, .ok none, .ok none, .ok none, .ok none⟩

/-! ### The crawl run (main.py lines 89-807)

A run with a single seed URL is modelled by the list page's element
reads, the quota `max_videos`, and the environmental outcomes of the
page visits: the inline sequential loop at lines 370-787 visits each
enumerated video and pushes at most one dataset record per video, and
the enqueued DETAIL requests (lines 337-353, handled at lines 146-214)
are processed by the crawler up to `max_requests_per_crawl - 1 =
max_videos` of them, each pushing at most one stub record. -/

/-- Environmental outcome of the inline visit of one video:
`success` is a full extraction ending in the `push_data` at line 749;
`terminal` is a page/browsing-context closure at any point (every such
branch logs and `continue`s without pushing); `extractError` is a
non-terminal fault inside the extraction block (lines 730-736,
`continue`, no push); `outerError` is a fault caught by the outer
`except` at line 767, which pushes the basic listing record. -/
inductive VisitOutcome where
  | success
  | terminal
  | extractError
  | outerError
deriving DecidableEq

/-- One list-page element together with the outcome its inline visit
would have. -/
structure ListElem where
  reads : ElemReads
  visit : VisitOutcome
deriving DecidableEq

/-- Configuration and environment of one single-seed run. -/
structure RunConfig where
  elems : List ListElem
  max_videos : Nat
  detailOk : List Bool
deriving DecidableEq

/-- A record appended to the dataset via `push_data`: the merged record
of line 749, the basic listing record of line 771, or the DETAIL stub of
lines 193-199, each tagged with the (canonical) URL it concerns. -/
inductive Push where
  | merged (url : String)
  | basic (url : String)
  | detailStub (url : String)
deriving DecidableEq

/-- Enumerated videos paired with their visit outcomes: the element loop
runs over `range(min(count, max_videos))` (line 292) and drops raising
items. -/
def run_videos (cfg : RunConfig) : List (VideoRecord × VisitOutcome) :=
  (cfg.elems.take (min cfg.elems.length cfg.max_videos)).filterMap
    (fun e => (extract_item e.reads).toOption.map (fun r => (r, e.visit)))

/-- Dataset pushes contributed by one iteration of the inline loop:
a video with a falsy link is only written to the key-value store
(lines 371-386, no dataset push); otherwise the visit outcome decides
between the merged push, the basic push, and no push at all. -/
def push_of (v : VideoRecord) (o : VisitOutcome) : List Push :=
  match v.link with
  | none => []
  | some l =>
    if l = "" then []
    else
      match o with
      | .success => [Push.merged (canonicalize l)]
      | .outerError => [Push.basic (canonicalize l)]
      | _ => []

/-- Dataset pushes of the whole inline sequential loop, in order. -/
def inline_pushes : List (VideoRecord × VisitOutcome) → List Push
  | [] => []
  | (v, o) :: rest => push_of v o ++ inline_pushes rest

/-- URLs the inline loop navigates to: every truthy link is visited at
its canonical URL (line 405), except under a `terminal` outcome, where
the closure may precede the navigation. -/
def inline_nav_urls (videos : List (VideoRecord × VisitOutcome)) : List String :=
  videos.filterMap (fun p =>
    match p.1.link with
    | none => none
    | some l =>
      if l = "" then none
      else match p.2 with
        | .terminal => none
        | _ => some (canonicalize l))

/-- Canonical URLs enqueued as DETAIL requests (main.py lines 339-353):
one per truthy link, in enumeration order. -/
def enqueued_links (videos : List VideoRecord) : List String :=
  videos.filterMap (fun v =>
    match v.link with
    | none => none
    | some l => if l = "" then none else some (canonicalize l))

/-- Deduplication loop of the external request queue: crawlee's
`add_request` ignores a request whose unique key (the URL) was already
enqueued, keeping the first occurrence. -/
def dedup_go (seen : List String) : List String → List String
  | [] => []
  | u :: rest =>
    if seen.contains u then dedup_go seen rest
    else u :: dedup_go (u :: seen) rest

/-- Deduplicated request queue contents, in enqueue order. -/
def dedup (l : List String) : List String :=
  dedup_go [] l

/-- DETAIL requests actually processed by the crawler: the queue after
deduplication, cut off at `max_requests_per_crawl - 1 = max_videos`
because the seed list request already consumed one slot (line 119). -/
def detail_processed (cfg : RunConfig) : List String :=
  (dedup (enqueued_links ((run_videos cfg).map Prod.fst))).take cfg.max_videos

/-- Stub pushes of the processed DETAIL requests: each request pushes
one record at lines 193-199 unless its handler hits a closed page or an
error first (`detailOk` records which ones push). -/
def detail_pushes (urls : List String) (ok : List Bool) : List Push :=
  (urls.zip ok).filterMap (fun p => if p.2 then some (Push.detailStub p.1) else none)

/-- Every dataset push of the run, inline loop first (it runs inside the
list-page handler, before the queued DETAIL requests are served). -/
def run_pushes (cfg : RunConfig) : List Push :=
  inline_pushes (run_videos cfg) ++
    detail_pushes (detail_processed cfg) cfg.detailOk

/-- Number of detail-page navigations to a given canonical URL over the
run: inline visits plus queue-driven visits. -/
def detail_visit_count (cfg : RunConfig) (u : String) : Nat :=
  (inline_nav_urls (run_videos cfg)).count u + (detail_processed cfg).count u

/-- Total number of page navigations of the run: the list page plus the
inline visits plus the processed DETAIL requests. -/
def run_nav_count (cfg : RunConfig) : Nat :=
  1 + (inline_nav_urls (run_videos cfg)).length + (detail_processed cfg).length

/-! ### DETAIL request handler (main.py lines 146-214) -/

/-- Values occurring in a pushed dataset dictionary. -/
inductive Value where
  | str (s : String)
  | bool (b : Bool)
deriving DecidableEq

/-- Environment of one DETAIL handler invocation: whether the shared
page is already closed on entry (line 151) and whether a Playwright or
generic error interrupts the processing before the push (lines 202-212). -/
structure DetailEnv where
  page_closed : Bool
  fault : Bool
deriving DecidableEq

/-- The DETAIL branch of the request handler: it builds a `detailed`
dictionary of null fields (lines 166-174) but never pushes it; the only
record it can push is the literal stub of lines 193-199. -/
def detail_handler (url : String) (env : DetailEnv) :
    Option (List (String × Value)) :=
  if env.page_closed then none
  else if env.fault then none
  else some [("url", .str url), ("processed", .bool true), ("label", .str "DETAIL")]

/-! ### Actor entry point (main.py lines 89-137 and 803-807) -/

/-- Model of the seed resolution at main.py lines 100-106: the list of
`url` fields of the `start_urls` input entries, defaulting to the single
YouTube homepage entry when the input omits the key. -/
def resolve_start_urls (start_urls_input : Option (List (Option String))) :
    List (Option String) :=
  start_urls_input.getD [some "https://www.youtube.com"]

/-- Observable result of `main`: either the early `Actor.exit()` of
line 111 (reached before the crawler, hence before any navigation or
push), or a crawl run. -/
inductive MainResult where
  | exited
  | ran (pushes : List Push) (navs : Nat)
deriving DecidableEq

/-- Model of `main` for a single-seed configuration: an empty resolved
seed list exits at line 111 before the crawler is even constructed;
otherwise the crawler runs and the run's pushes and navigations happen. -/
def main_run (start_urls_input : Option (List (Option String)))
    (cfg : RunConfig) : MainResult :=
  if (resolve_start_urls start_urls_input).isEmpty then .exited
  else .ran (run_pushes cfg) (run_nav_count cfg)

/-- Number of records persisted by a main result. -/
def result_push_count : MainResult → Nat
  | .exited => 0
  | .ran p _ => p.length

/-- Number of page navigations of a main result. -/
def result_nav_count : MainResult → Nat
  | .exited => 0
  | .ran _ n => n

/-! ### Concrete run configurations used by counterexamples and witnesses -/

/-- Element reads that all succeed, with the given link value. -/
def sample_reads (l : String) : ElemReads :=
  ⟨.ok (some "Title"), .ok none, .ok (some "thumb.jpg"), .ok (some l),
   .ok (some "10 views"), .ok (some "1 day ago")⟩

/-- An element whose every read raises (e.g. every locator times out). -/
def raising_reads : ElemReads :=
  ⟨.error (), .error (), .error (), .error (), .error (), .error ()⟩

/-- Run with quota 1, a single fully successful list item, and a
successful DETAIL request. -/
def quota_one_run : RunConfig :=
  ⟨[⟨sample_reads "/watch?v=a", .success⟩], 1, [true]⟩

/-- Run of two items where the first visit hits a terminal page fault
mid-extraction and the second succeeds; the DETAIL requests fault. -/
def terminal_fault_run : RunConfig :=
  ⟨[⟨sample_reads "/watch?v=a", .terminal⟩, ⟨sample_reads "/watch?v=b", .success⟩],
   2, [false, false]⟩

/-- Run in which the same link is discovered by two list items. -/
def duplicate_link_run : RunConfig :=
  ⟨[⟨sample_reads "/watch?v=a", .success⟩, ⟨sample_reads "/watch?v=a", .success⟩],
   2, [true, true]⟩

/-! ### Helper lemmas -/

theorem push_of_length (v : VideoRecord) (o : VisitOutcome) :
    (push_of v o).length ≤ 1 := by
  unfold push_of
  rcases v.link with _ | l
  · simp
  · dsimp only
    split
    · simp
    · cases o <;> simp

theorem push_of_terminal (v : VideoRecord) : push_of v .terminal = [] := by
  unfold push_of
  rcases v.link with _ | l
  · rfl
  · dsimp only
    split <;> rfl

theorem inline_pushes_length (l : List (VideoRecord × VisitOutcome)) :
    (inline_pushes l).length ≤ l.length := by
  induction l with
  | nil => simp [inline_pushes]
  | cons p rest ih =>
    rcases p with ⟨v, o⟩
    have h := push_of_length v o
    simp only [inline_pushes, List.length_append, List.length_cons]
    omega

theorem inline_pushes_append (xs ys : List (VideoRecord × VisitOutcome)) :
    inline_pushes (xs ++ ys) = inline_pushes xs ++ inline_pushes ys := by
  induction xs with
  | nil => simp [inline_pushes]
  | cons p rest ih =>
    rcases p with ⟨v, o⟩
    simp [inline_pushes, ih]

theorem run_videos_length (cfg : RunConfig) :
    (run_videos cfg).length ≤ cfg.max_videos := by
  unfold run_videos
  calc ((cfg.elems.take (min cfg.elems.length cfg.max_videos)).filterMap _).length
      ≤ (cfg.elems.take (min cfg.elems.length cfg.max_videos)).length :=
        List.length_filterMap_le _ _
    _ ≤ min cfg.elems.length cfg.max_videos := List.length_take_le _ _
    _ ≤ cfg.max_videos := Nat.min_le_right _ _

theorem detail_pushes_length (urls : List String) (ok : List Bool) :
    (detail_pushes urls ok).length ≤ urls.length := by
  unfold detail_pushes
  calc ((urls.zip ok).filterMap _).length
      ≤ (urls.zip ok).length := List.length_filterMap_le _ _
    _ ≤ urls.length := by rw [List.length_zip]; exact Nat.min_le_left _ _

theorem dedup_go_count (u : String) (l : List String) :
    ∀ seen : List String,
      (dedup_go seen l).count u ≤ if seen.contains u then 0 else 1 := by
  induction l with
  | nil => intro seen; simp [dedup_go]
  | cons x rest ih =>
    intro seen
    unfold dedup_go
    by_cases hx : seen.contains x
    · rw [if_pos hx]
      exact ih seen
    · rw [if_neg hx]
      have h2 := ih (x :: seen)
      by_cases hux : x = u
      · subst hux
        have hseen : ¬ seen.contains x = true := hx
        rw [if_neg hseen]
        have : (x :: seen).contains x = true := by simp
        rw [if_pos this] at h2
        simp only [List.count_cons, beq_self_eq_true, if_true]
        omega
      · have hcons : ((x :: seen).contains u) = seen.contains u := by
          simp only [List.contains_cons]
          rw [show (u == x) = false from beq_eq_false_iff_ne.mpr (Ne.symm hux)]
          simp
        rw [hcons] at h2
        simp only [List.count_cons]
        rw [show (x == u) = false from beq_eq_false_iff_ne.mpr hux]
        simp only [Bool.false_eq_true, if_false]
        omega

theorem resolve_chain_from_first (normalize : String → Option String) :
    ∀ (cands : List (Option String)) (i b : Nat) (v : String),
      i < cands.length →
      candidate_value normalize (cands.getD i none) = some v →
      (∀ j, j < i → candidate_value normalize (cands.getD j none) = none) →
      resolve_chain_from normalize b cands = some (v, b + i) := by
  intro cands
  induction cands with
  | nil => intro i b v hi; exact absurd hi (by simp)
  | cons c rest ih =>
    intro i b v hi hv hprev
    cases i with
    | zero =>
      rw [List.getD_cons_zero] at hv
      unfold resolve_chain_from
      rw [hv]
      simp
    | succ n =>
      have h0 : candidate_value normalize c = none := by
        have := hprev 0 (Nat.succ_pos n)
        rwa [List.getD_cons_zero] at this
      unfold resolve_chain_from
      rw [h0]
      have hrec := ih n (b + 1) v
        (by simp only [List.length_cons] at hi; omega)
        (by rwa [List.getD_cons_succ] at hv)
        (fun j hj => by
          have := hprev (j + 1) (Nat.succ_lt_succ hj)
          rwa [List.getD_cons_succ] at this)
      show resolve_chain_from normalize (b + 1) rest = some (v, b + (n + 1))
      rw [hrec]
      have harith : b + 1 + n = b + (n + 1) := by omega
      rw [harith]

theorem starts_with_slash_prefixed (u : String) :
    starts_with_slash ("https://www.youtube.com" ++ u) = false := by
  cases u with
  | mk l => rfl

/-! ### Claim C2 — duration transform scenarios -/

/-- C2 counterexample: the claim states that `"PT2M5S"` maps to
`"2:05"`, but the code zero-pads minutes and seconds only when an hours
component is present, so the transform yields `"2:5"`. -/
theorem duration_no_hours_not_padded :
    duration_normalize "PT2M5S" = some "2:5" ∧ ("2:5" : String) ≠ "2:05" := by
  constructor
  · decide
  · decide

/-- C2 (amended): the duration transform maps `"PT1H2M3S"` to
`"1:02:03"` (zero-padded minutes and seconds), but maps `"PT2M5S"` to
`"2:5"` — when the hours component is absent the two remaining parts are
left unpadded. -/
theorem duration_transform_values :
    duration_normalize "PT1H2M3S" = some "1:02:03" ∧
    duration_normalize "PT2M5S" = some "2:5" := by
  constructor
  · decide
  · decide

/-! ### Claim C4 — first-candidate resolution -/

/-- C4: for a field's ordered candidate list, the resolver returns the
normalized value of the first candidate (in list order) whose read is
present, truthy, and normalizes to a value; erroring, absent, empty or
non-normalizing candidates are skipped, and later candidates cannot
override the first success. -/
theorem resolver_first_success (normalize : String → Option String)
    (cands : List (Option String)) (i : Nat) (v : String)
    (hi : i < cands.length)
    (hv : candidate_value normalize (cands.getD i none) = some v)
    (hprev : ∀ j, j < i → candidate_value normalize (cands.getD j none) = none) :
    resolve_chain normalize cands = some (v, i) := by
  have := resolve_chain_from_first normalize cands i 0 v hi hv hprev
  simpa [resolve_chain] using this

/-- Witness for C4: in the duration chain, an absent candidate, a
whitespace-only candidate and a non-normalizing candidate are all
skipped, and the fourth candidate's ISO token wins even though a fifth
candidate would also succeed. -/
theorem resolver_first_success_witness :
    resolve_chain duration_normalize
      [none, some " ", some "junk", some "PT2M5S", some "3:00"] = some ("2:5", 3) :=
  resolver_first_success duration_normalize
    [none, some " ", some "junk", some "PT2M5S", some "3:00"] 3 "2:5"
    (by decide) (by decide)
    (fun j hj => by interval_cases j <;> decide)

/-! ### Claim C9 — canonicalization is idempotent -/

/-- C9: the link-normalization step (prefixing a site-relative link with
the YouTube origin) is idempotent: applying it twice gives the same
result as applying it once, for every URL. -/
theorem canonicalize_idempotent (u : String) :
    canonicalize (canonicalize u) = canonicalize u := by
  unfold canonicalize
  cases h : starts_with_slash u with
  | false => simp [h]
  | true =>
    simp only [h, if_true]
    simp [starts_with_slash_prefixed u]

/-! ### Claim C1 — quota bound on persisted records -/

/-- C1 counterexample: with quota 1 and a single list item, the run
pushes two records to the dataset — the merged record of the inline
sequential loop and the stub pushed by the enqueued DETAIL request —
so the total number of persisted records exceeds the quota. -/
theorem quota_exceeded_counterexample :
    (run_pushes quota_one_run).length = 2 ∧ quota_one_run.max_videos = 1 := by
  constructor
  · decide
  · rfl

/-- C1 (amended): for a single-seed run with quota N, the inline
sequential loop pushes at most N records and the DETAIL requests (capped
at N by `max_requests_per_crawl = N + 1`) push at most N stub records,
so the total number of records pushed to the dataset never exceeds 2·N. -/
theorem total_pushes_le_twice_quota (cfg : RunConfig) :
    (run_pushes cfg).length ≤ 2 * cfg.max_videos := by
  unfold run_pushes
  rw [List.length_append]
  have h1 : (inline_pushes (run_videos cfg)).length ≤ cfg.max_videos :=
    Nat.le_trans (inline_pushes_length _) (run_videos_length cfg)
  have h2 : (detail_pushes (detail_processed cfg) cfg.detailOk).length ≤ cfg.max_videos := by
    refine Nat.le_trans (detail_pushes_length _ _) ?_
    unfold detail_processed
    exact List.length_take_le _ _
  omega

/-! ### Claim C3 — terminal fault on a detail page -/

/-- C3 counterexample: in a two-item run whose first visit hits a
terminal page fault mid-extraction, the only record pushed is the second
item's — the faulted item's partially filled record is not persisted,
although the next item is still processed. -/
theorem terminal_fault_record_dropped :
    run_pushes terminal_fault_run = [Push.merged "https://www.youtube.com/watch?v=b"] ∧
    (run_videos terminal_fault_run).length = 2 := by
  constructor
  · decide
  · decide

/-- C3 (amended): a terminal page fault (page/browsing context closed)
mid-extraction causes the current item to be skipped without persisting
any record for it, and the remaining items are still processed exactly
as they would have been. -/
theorem terminal_fault_skips_and_continues (xs : List (VideoRecord × VisitOutcome))
    (v : VideoRecord) (ys : List (VideoRecord × VisitOutcome)) :
    inline_pushes (xs ++ (v, VisitOutcome.terminal) :: ys) =
      inline_pushes xs ++ inline_pushes ys := by
  rw [inline_pushes_append]
  have : inline_pushes ((v, VisitOutcome.terminal) :: ys) =
      push_of v .terminal ++ inline_pushes ys := rfl
  rw [this, push_of_terminal]
  rfl

/-! ### Claim C5 — empty seed list aborts the run -/

/-- C5: if the resolved seed URL list is empty, `main` exits at once:
the crawler is never constructed, no page is navigated to and no record
is persisted. -/
theorem empty_seed_aborts (inp : Option (List (Option String))) (cfg : RunConfig)
    (h : resolve_start_urls inp = []) :
    main_run inp cfg = .exited ∧
    result_push_count (main_run inp cfg) = 0 ∧
    result_nav_count (main_run inp cfg) = 0 := by
  have he : (resolve_start_urls inp).isEmpty = true := by rw [h]; rfl
  have hm : main_run inp cfg = .exited := by unfold main_run; rw [he]; rfl
  refine ⟨hm, ?_, ?_⟩
  · rw [hm]; rfl
  · rw [hm]; rfl

/-- Witness for C5: an actor input whose `start_urls` key holds the
empty list resolves to an empty seed list and aborts the run. -/
theorem empty_seed_aborts_witness :
    main_run (some []) ⟨[], 0, []⟩ = .exited ∧
    result_push_count (main_run (some []) ⟨[], 0, []⟩) = 0 ∧
    result_nav_count (main_run (some []) ⟨[], 0, []⟩) = 0 :=
  empty_seed_aborts (some []) ⟨[], 0, []⟩ rfl

/-! ### Claim C6 — deduplication and at-most-once visits -/

/-- C6 counterexample: when the same link is discovered by two list
items, the detail page is visited three times in the run — twice by the
inline sequential loop (once per occurrence) and once via the
deduplicated request queue — refuting the at-most-once-visit claim. -/
theorem duplicate_url_visited_thrice :
    detail_visit_count duplicate_link_run "https://www.youtube.com/watch?v=a" = 3 := by
  decide

/-- C6 (amended): the request queue holds at most one live request per
canonical URL (the queue deduplicates by URL, so enqueueing the same URL
twice produces exactly one pending request), but the detail page itself
can be visited several times: once per discovered occurrence by the
inline loop, plus at most once via the queue. -/
theorem queue_holds_url_at_most_once (cfg : RunConfig) (u : String) :
    (dedup (enqueued_links ((run_videos cfg).map Prod.fst))).count u ≤ 1 := by
  have h := dedup_go_count u (enqueued_links ((run_videos cfg).map Prod.fst)) []
  simpa [dedup] using h

/-! ### Claim C7 — likes transform -/

/-- C7: the likes transform extracts the leading numeric magnitude from
`"1.2K likes"`, and for any source text whose stripped form is non-empty
and contains no match of the numeric pattern, it returns the stripped
text verbatim rather than discarding it. -/
theorem likes_transform_values :
    likes_from_text "1.2K likes" = some "1.2K" ∧
    ∀ s : String, search_num_token (py_strip_s s) = none → py_strip_s s ≠ "" →
      likes_from_text s = some (py_strip_s s) := by
  constructor
  · decide
  · intro s h1 h2
    have hs : s ≠ "" := by
      intro he
      subst he
      exact h2 rfl
    unfold likes_from_text
    rw [if_neg hs]
    simp only [h1]
    rw [if_pos h2]

/-- Witness for C7: both scenario shapes at concrete inputs — a numeric
magnitude is extracted, and a text with no numeric pattern passes
through stripped but otherwise unchanged. -/
theorem likes_transform_values_witness :
    likes_from_text "1.2K likes" = some "1.2K" ∧
    likes_from_text "No likes yet" = some "No likes yet" :=
  ⟨likes_transform_values.1,
   likes_transform_values.2 "No likes yet" (by decide) (by decide)⟩

/-! ### Claim C8 — list extractor fault absorption -/

/-- C8 counterexample: a list item all of whose field reads raise (for
example, every locator times out) is dropped from `video_info_list`
entirely — the loop does not emit an all-null record for it. -/
theorem raising_item_dropped :
    extract_list_loop [raising_reads] = [] ∧
    ([] : List VideoRecord) ≠ [⟨none, none, none, none, none⟩] := by
  constructor
  · decide
  · decide

/-- C8 (amended): the element loop never propagates a fault — an item
whose extraction raises is absorbed and simply dropped, with every other
item still processed exactly as before — and an item whose reads all
succeed with null values does yield an all-null record. -/
theorem extractor_absorbs_faults (pre : List ElemReads) (e : ElemReads)
    (post : List ElemReads) (h : extract_item e = .error ()) :
    extract_list_loop (pre ++ e :: post) =
      extract_list_loop pre ++ extract_list_loop post ∧
    extract_item all_null_reads = .ok ⟨none, none, none, none, none⟩ := by
  constructor
  · have hnone : (extract_item e).toOption = none := by rw [h]; rfl
    unfold extract_list_loop
    rw [List.filterMap_append, List.filterMap_cons, hnone]
  · rfl

/-- Witness for C8: a run over a single raising element produces the
empty list on both sides, and the all-null element extracts. -/
theorem extractor_absorbs_faults_witness :
    extract_list_loop ([] ++ raising_reads :: []) =
      extract_list_loop [] ++ extract_list_loop [] ∧
    extract_item all_null_reads = .ok ⟨none, none, none, none, none⟩ :=
  extractor_absorbs_faults [] raising_reads [] rfl

/-! ### Claim C10 — DETAIL handler record shape -/

/-- C10: every record the DETAIL request handler pushes to the dataset
consists of exactly the keys `url`, `processed` and `label`, with
`processed` always `true` and `label` always `"DETAIL"`; none of the
detail fields (duration, likes, creators, summary, comments_count) are
ever populated by that handler. -/
theorem detail_handler_record_shape (url : String) (env : DetailEnv)
    (r : List (String × Value)) (h : detail_handler url env = some r) :
    r.map Prod.fst = ["url", "processed", "label"] ∧
    r.lookup "url" = some (.str url) ∧
    r.lookup "processed" = some (.bool true) ∧
    r.lookup "label" = some (.str "DETAIL") ∧
    r.lookup "duration" = none ∧
    r.lookup "likes" = none ∧
    r.lookup "creators" = none ∧
    r.lookup "summary" = none ∧
    r.lookup "comments_count" = none := by
  rcases env with ⟨pc, f⟩
  cases pc with
  | true => exact absurd h (by simp [detail_handler])
  | false =>
    cases f with
    | true => exact absurd h (by simp [detail_handler])
    | false =>
      have h2 : r = [("url", Value.str url), ("processed", Value.bool true),
          ("label", Value.str "DETAIL")] := by
        simp only [detail_handler] at h
        rw [if_neg (by decide), if_neg (by decide)] at h
        exact (Option.some_inj.mp h).symm
      subst h2
      exact ⟨rfl, rfl, rfl, rfl, rfl, rfl, rfl, rfl, rfl⟩

/-- Witness for C10: a successful DETAIL handler invocation at a
concrete URL pushes exactly the three-key stub record. -/
theorem detail_handler_record_shape_witness :
    ([("url", Value.str "https://www.youtube.com/watch?v=a"),
      ("processed", Value.bool true),
      ("label", Value.str "DETAIL")].map Prod.fst
        = ["url", "processed", "label"]) ∧
    ([("url", Value.str "https://www.youtube.com/watch?v=a"),
      ("processed", Value.bool true),
      ("label", Value.str "DETAIL")].lookup "url"
        = some (.str "https://www.youtube.com/watch?v=a")) ∧
    ([("url", Value.str "https://www.youtube.com/watch?v=a"),
      ("processed", Value.bool true),
      ("label", Value.str "DETAIL")].lookup "processed" = some (.bool true)) ∧
    ([("url", Value.str "https://www.youtube.com/watch?v=a"),
      ("processed", Value.bool true),
      ("label", Value.str "DETAIL")].lookup "label" = some (.str "DETAIL")) ∧
    ([("url", Value.str "https://www.youtube.com/watch?v=a"),
      ("processed", Value.bool true),
      ("label", Value.str "DETAIL")].lookup "duration" = none) ∧
    ([("url", Value.str "https://www.youtube.com/watch?v=a"),
      ("processed", Value.bool true),
      ("label", Value.str "DETAIL")].lookup "likes" = none) ∧
    ([("url", Value.str "https://www.youtube.com/watch?v=a"),
      ("processed", Value.bool true),
      ("label", Value.str "DETAIL")].lookup "creators" = none) ∧
    ([("url", Value.str "https://www.youtube.com/watch?v=a"),
      ("processed", Value.bool true),
      ("label", Value.str "DETAIL")].lookup "summary" = none) ∧
    ([("url", Value.str "https://www.youtube.com/watch?v=a"),
      ("processed", Value.bool true),
      ("label", Value.str "DETAIL")].lookup "comments_count" = none) :=
  detail_handler_record_shape "https://www.youtube.com/watch?v=a" ⟨false, false⟩ _ rfl

end Scraper
